import Mathlib

/-!
# Verification of the PORTAL OTP-gated authentication subsystem

Shallow embedding of `backend/src/routes/auth.js`: the OTP engine, the
ephemeral-token issuer and the seven auth route handlers (register, login,
reset-password, send-otp, verify-otp, verify-reset-otp, update-password),
modelled as pure functions over an explicit database state.

Time is a `Nat` of milliseconds since the epoch; one `now` is threaded
through a handler, reflecting sequential execution of its store operations.
JavaScript comparisons of the form `expiresAt > now - window` are rendered
as `now < expiresAt + window`, which agrees with the source over the
integers without `Nat` truncation.
-/

namespace Portal

/-- A row of the `OTP` table (Prisma model `oTP`): `id`, `email`, `otp`
(the code, stored as a string), `purpose` (`"VERIFY_EMAIL"` or
`"RESET_PASSWORD"`), `isUsed`, `expiresAt`, `createdAt`. -/
structure OtpRow where
  id : Nat
  email : String
  otp : String
  purpose : String
  isUsed : Bool
  expiresAt : Nat
  createdAt : Nat
deriving DecidableEq

/-- A row of the `User` table, with the fields the auth routes touch. -/
structure User where
  id : Nat
  email : String
  passwordHash : String
  role : String
  status : String
  emailVerified : Bool
  emailVerifiedAt : Option Nat
  lastLoginAt : Option Nat
deriving DecidableEq

/-- A row of the `RefreshToken` table. -/
structure RefreshTokenRow where
  userId : Nat
  token : String
  expiresAt : Nat
deriving DecidableEq

/-- Role-specific profile row created alongside a `STUDENT` user. -/
structure StudentRow where
  userId : Nat
deriving DecidableEq

/-- Role-specific profile row created alongside a `RECRUITER` user. -/
structure RecruiterRow where
  userId : Nat
deriving DecidableEq

/-- Role-specific profile row created alongside an `ADMIN` user. -/
structure AdminRow where
  userId : Nat
deriving DecidableEq

/-- The transactional record store the routes operate on. -/
structure DB where
  users : List User
  otps : List OtpRow
  refreshTokens : List RefreshTokenRow
  students : List StudentRow
  recruiters : List RecruiterRow
  admins : List AdminRow
  nextUserId : Nat
  nextOtpId : Nat
deriving DecidableEq

/-- Payload of a signed ephemeral token: `email`, optional `userId`, and the
`type` tag (`"verification"` or `"password_reset"`). -/
structure JwtPayload where
  email : String
  userId : Option Nat
  type : String
deriving DecidableEq

/-- A signed ephemeral token (jsonwebtoken): self-contained payload, the
secret it was signed with, and its expiry instant. -/
structure Jwt where
  payload : JwtPayload
  secret : String
  exp : Nat
deriving DecidableEq

/-- `jwt.sign(payload, secret, { expiresIn: ttl })`. -/
def jwtSign (p : JwtPayload) (secret : String) (now ttlMs : Nat) : Jwt :=
  ⟨p, secret, now + ttlMs⟩

/-- `jwt.verify(token, secret)`: succeeds iff the token was signed with
`secret` and is unexpired, returning the decoded payload; throws (here:
`none`) otherwise. -/
def jwtVerify (t : Jwt) (secret : String) (now : Nat) : Option JwtPayload :=
  if t.secret = secret ∧ now < t.exp then some t.payload else none

/-- The bcrypt hasher is an external collaborator; it is modelled as a
deterministic injective hash, with `bcrypt.compare` as equality of hashes. -/
def bcryptHash (password : String) : String :=
  "bcrypt$" ++ password

/-- `bcrypt.compare(password, hash)`. -/
def bcryptCompare (password hash : String) : Bool :=
  bcryptHash password == hash

/-- Modelled from the spec: `generateAccessToken` lives in
`middleware/auth.js`, which is not among the provided sources; the spec
describes it only as a short-lived signed token carrying the userId, and no
claim depends on its contents. -/
def generateAccessToken (userId now : Nat) : String :=
  "access-" ++ toString userId ++ "-" ++ toString now

/-- Modelled from the spec: `generateRefreshToken` lives in
`middleware/auth.js`, which is not among the provided sources; the spec
describes the refresh token only as an opaque random string, and no claim
depends on its contents. -/
def generateRefreshToken (userId now : Nat) : String :=
  "refresh-" ++ toString userId ++ "-" ++ toString now

/-- `prisma.user.findUnique({ where: { email } })`. -/
def findUser (db : DB) (email : String) : Option User :=
  db.users.find? (fun u => u.email == email)

/-- Of a list of OTP rows, the one with the greatest `createdAt`
(`orderBy: { createdAt: 'desc' }` followed by `findFirst`). -/
def pickLatest : List OtpRow → Option OtpRow
  | [] => none
  | r :: rs =>
    match pickLatest rs with
    | none => some r
    | some s => if s.createdAt > r.createdAt then some s else some r

/-- `prisma.oTP.findFirst({ where: p, orderBy: { createdAt: 'desc' } })`. -/
def findLatest (p : OtpRow → Bool) (l : List OtpRow) : Option OtpRow :=
  pickLatest (l.filter p)

/-- The `where` clause of the OTP verification lookup:
`{ email, otp, purpose, isUsed: false, expiresAt: { gt: new Date() } }`. -/
def otpMatches (email otp purpose : String) (now : Nat) (r : OtpRow) : Bool :=
  r.email == email && r.otp == otp && r.purpose == purpose &&
    !r.isUsed && decide (now < r.expiresAt)

/-- The `where` clause of the issue-time invalidation and of the at-most-one
live-row invariant: `{ email, purpose, isUsed: false, expiresAt: { gt: new
Date() } }`. -/
def livePred (email purpose : String) (now : Nat) (r : OtpRow) : Bool :=
  r.email == email && r.purpose == purpose && !r.isUsed &&
    decide (now < r.expiresAt)

/-- The `where` clause of the recently-verified check:
`{ email, purpose, isUsed: true, expiresAt: { gt: new Date(Date.now() -
windowMs) } }`. -/
def recentlyUsedPred (email purpose : String) (windowMs now : Nat)
    (r : OtpRow) : Bool :=
  r.email == email && r.purpose == purpose && r.isUsed &&
    decide (now < r.expiresAt + windowMs)

/-- `prisma.oTP.update({ where: { id }, data: { isUsed: true } })`. -/
def markUsed (otps : List OtpRow) (id : Nat) : List OtpRow :=
  otps.map (fun r => if r.id == id then { r with isUsed := true } else r)

/-- `prisma.oTP.updateMany` marking every live row for `(email, purpose)`
as used — the pre-insert invalidation step of both issue operations. -/
def invalidateLive (otps : List OtpRow) (email purpose : String)
    (now : Nat) : List OtpRow :=
  otps.map (fun r =>
    if livePred email purpose now r then { r with isUsed := true } else r)

/-- JavaScript's `String.prototype.toLowerCase()` over the ASCII strings in
play, as a character-wise map. -/
def jsToLower (s : String) : String :=
  ⟨s.data.map Char.toLower⟩

/-- Whitespace as stripped by `String.prototype.trim()` (ASCII subset). -/
def isJsWhitespace (c : Char) : Bool :=
  c == ' ' || c == '\t' || c == '\n' || c == '\r'

/-- JavaScript's `String.prototype.trim()`: drop leading and trailing
whitespace. -/
def jsTrim (s : String) : String :=
  ⟨((s.data.dropWhile isJsWhitespace).reverse.dropWhile isJsWhitespace).reverse⟩

/-- `body('otp').isLength({ min: 6, max: 6 }).matches(/^\d+$/)`. -/
def isSixDigits (s : String) : Bool :=
  s.length == 6 && s.data.all Char.isDigit

/-- `role` must be one of the three roles
(`body('role').isIn(['STUDENT', 'RECRUITER', 'ADMIN'])`). -/
def validRole (role : String) : Bool :=
  role == "STUDENT" || role == "RECRUITER" || role == "ADMIN"

/-- `Math.floor(100000 + Math.random() * 900000)`: with `rand` the random
draw (uniform on `0 ≤ rand < 900000`, via `rand % 900000` for arbitrary
naturals), the generated code. -/
def generateOtp (rand : Nat) : Nat :=
  100000 + rand % 900000

/-- Result of `POST /auth/verify-otp` and `POST /auth/verify-reset-otp`. -/
inductive TokenResult where
  | validationError
  | err (status : Nat) (msg : String)
  | success (token : Jwt)
deriving DecidableEq

/-- Result of `POST /auth/send-otp`. -/
inductive SendOtpResult where
  | err (status : Nat) (msg : String)
  | ok (message : String) (expiresIn : Nat) (otpStatus : String)
      (otpExpiresAt : Nat)
deriving DecidableEq

/-- Result of `POST /auth/reset-password`. -/
inductive ResetPasswordResult where
  | err (status : Nat) (msg : String)
  | ok (message otpStatus : String) (otpExpiresAt : Nat)
deriving DecidableEq

/-- Result of `POST /auth/login`. -/
inductive LoginResult where
  | validationError
  | err (status : Nat) (msg : String)
  | ok (userId : Nat) (accessToken refreshToken : String)
deriving DecidableEq

/-- Result of `POST /auth/register`. -/
inductive RegisterResult where
  | validationError
  | err (status : Nat) (msg : String)
  | ok (userId : Nat) (emailVerified : Bool) (accessToken refreshToken : String)
deriving DecidableEq

/-- Result of `POST /auth/update-password`. -/
inductive UpdatePasswordResult where
  | validationError
  | err (status : Nat) (msg : String)
  | ok
deriving DecidableEq

/-- `POST /auth/verify-otp`: look up the most recent live row matching
`(email, otp, VERIFY_EMAIL)`; if none, 400 `Invalid or expired OTP`; else
mark it used and return a `verification` token (ttl 10 minutes). -/
def verifyOtp (db : DB) (secret : String) (now : Nat) (email otp : String) :
    TokenResult × DB :=
  if isSixDigits otp then
    match findLatest (otpMatches email otp "VERIFY_EMAIL" now) db.otps with
    | none => (.err 400 "Invalid or expired OTP", db)
    | some row =>
      (.success (jwtSign ⟨email, none, "verification"⟩ secret now (10 * 60 * 1000)),
       { db with otps := markUsed db.otps row.id })
  else (.validationError, db)

/-- `POST /auth/verify-reset-otp`: fail 400 `Invalid or expired reset code`
if the user does not exist or no live row matches `(email, otp,
RESET_PASSWORD)`; else mark the row used and return a `password_reset`
token carrying `{email, userId}` (ttl 15 minutes). -/
def verifyResetOtp (db : DB) (secret : String) (now : Nat)
    (email otp : String) : TokenResult × DB :=
  if isSixDigits otp then
    match findUser db email with
    | none => (.err 400 "Invalid or expired reset code", db)
    | some user =>
      match findLatest (otpMatches email otp "RESET_PASSWORD" now) db.otps with
      | none => (.err 400 "Invalid or expired reset code", db)
      | some row =>
        (.success (jwtSign ⟨email, some user.id, "password_reset"⟩ secret now
            (15 * 60 * 1000)),
         { db with otps := markUsed db.otps row.id })
  else (.validationError, db)

/-- `POST /auth/send-otp`: reject if the email is already registered; else
invalidate live `VERIFY_EMAIL` rows for the email, insert a fresh row with
a 5-minute expiry, and respond immediately (email dispatch is
fire-and-forget and does not affect state or response). -/
def sendOtp (db : DB) (now : Nat) (email : String) (rand : Nat) :
    SendOtpResult × DB :=
  match findUser db email with
  | some _ => (.err 400 "Email already registered", db)
  | none =>
    let expiresAt := now + 5 * 60 * 1000
    let newRow : OtpRow :=
      ⟨db.nextOtpId, email, toString (generateOtp rand), "VERIFY_EMAIL",
        false, expiresAt, now⟩
    (.ok "OTP sent to your email. Please check your inbox." 300
        "PENDING_VERIFICATION" expiresAt,
     { db with
        otps := invalidateLive db.otps email "VERIFY_EMAIL" now ++ [newRow]
        nextOtpId := db.nextOtpId + 1 })

/-- `POST /auth/reset-password`: look the user up under the lowercased,
trimmed email, falling back to the raw email; when no user exists, answer
with the same success shape and a synthesized 10-minute `otpExpiresAt`
without touching the store; when one exists, invalidate live
`RESET_PASSWORD` rows for the stored email and insert a fresh row with a
10-minute expiry. -/
def resetPassword (db : DB) (now : Nat) (email : String) (rand : Nat) :
    ResetPasswordResult × DB :=
  let normalizedEmail := jsTrim (jsToLower email)
  if email.isEmpty ∨ normalizedEmail.isEmpty then
    (.err 400 "Email is required", db)
  else
    match (findUser db normalizedEmail).orElse (fun _ => findUser db email) with
    | none =>
      (.ok "If email exists, password reset OTP sent" "PENDING_VERIFICATION"
          (now + 10 * 60 * 1000), db)
    | some user =>
      let dbEmail := user.email
      let expiresAt := now + 10 * 60 * 1000
      let newRow : OtpRow :=
        ⟨db.nextOtpId, dbEmail, toString (generateOtp rand), "RESET_PASSWORD",
          false, expiresAt, now⟩
      (.ok "If email exists, password reset OTP sent" "PENDING_VERIFICATION"
          expiresAt,
       { db with
          otps := invalidateLive db.otps dbEmail "RESET_PASSWORD" now ++ [newRow]
          nextOtpId := db.nextOtpId + 1 })

/-- `POST /auth/login`: unknown email and wrong password both yield 401
`Invalid credentials`; then the optional role check (403), then the
BLOCKED check (403); on success update `lastLoginAt`, persist a 7-day
refresh token and return the session. -/
def login (db : DB) (now : Nat) (email password : String)
    (role : Option String) : LoginResult × DB :=
  if password.isEmpty then (.validationError, db)
  else
    match findUser db email with
    | none => (.err 401 "Invalid credentials", db)
    | some user =>
      if bcryptCompare password user.passwordHash = false then
        (.err 401 "Invalid credentials", db)
      else if role.getD user.role ≠ user.role then
        (.err 403 "Invalid role for this account", db)
      else if user.status = "BLOCKED" then
        (.err 403 "Account is blocked", db)
      else
        let refresh := generateRefreshToken user.id now
        (.ok user.id (generateAccessToken user.id now) refresh,
         { db with
            users := db.users.map (fun u =>
              if u.id == user.id then { u with lastLoginAt := some now } else u)
            refreshTokens := db.refreshTokens ++
              [⟨user.id, refresh, now + 7 * 24 * 60 * 60 * 1000⟩] })

/-- The write phase of `POST /auth/register`, reached once the optional
verification-token checks have passed: reject an already-registered email,
then in one transaction create the `User` (status `PENDING` for
recruiters, `ACTIVE` otherwise) and its role-specific profile row, then
persist a 7-day refresh token. -/
def registerCore (db : DB) (now : Nat) (email password role : String)
    (emailVerified : Bool) (emailVerifiedAt : Option Nat) :
    RegisterResult × DB :=
  match findUser db email with
  | some _ => (.err 400 "Email already registered", db)
  | none =>
    let uid := db.nextUserId
    let user : User :=
      ⟨uid, email, bcryptHash password, role,
        if role == "RECRUITER" then "PENDING" else "ACTIVE",
        emailVerified, emailVerifiedAt, none⟩
    let db1 : DB :=
      { db with users := db.users ++ [user], nextUserId := uid + 1 }
    let db2 : DB :=
      if role == "STUDENT" then
        { db1 with students := db1.students ++ [⟨uid⟩] }
      else if role == "RECRUITER" then
        { db1 with recruiters := db1.recruiters ++ [⟨uid⟩] }
      else
        { db1 with admins := db1.admins ++ [⟨uid⟩] }
    let refresh := generateRefreshToken uid now
    (.ok uid emailVerified (generateAccessToken uid now) refresh,
     { db2 with refreshTokens := db2.refreshTokens ++
        [⟨uid, refresh, now + 7 * 24 * 60 * 60 * 1000⟩] })

/-- `POST /auth/register`: after input validation, an optionally supplied
verification token must decode under the process secret (else 400
`Invalid verification token…`), carry the registration email and the
`verification` type tag (else 400 `Email verification failed`), and be
backed by a `VERIFY_EMAIL` row used within the last 10 minutes (else 400
`Email verification required…`); only then — or when no token is supplied,
with `emailVerified=false` — does the write phase run. -/
def register (db : DB) (secret : String) (now : Nat)
    (email password role : String) (verificationToken : Option Jwt) :
    RegisterResult × DB :=
  if password.length < 6 then (.validationError, db)
  else if validRole role = false then (.validationError, db)
  else
    match verificationToken with
    | none => registerCore db now email password role false none
    | some tok =>
      match jwtVerify tok secret now with
      | none => (.err 400 "Invalid verification token. Please verify OTP first.", db)
      | some decoded =>
        if decoded.email ≠ email ∨ decoded.type ≠ "verification" then
          (.err 400 "Email verification failed", db)
        else
          match findLatest
              (recentlyUsedPred email "VERIFY_EMAIL" (10 * 60 * 1000) now)
              db.otps with
          | none =>
            (.err 400 "Email verification required. Please verify OTP first.", db)
          | some _ => registerCore db now email password role true (some now)

/-- `POST /auth/update-password`: after the ≥6-character password check,
verify the reset token (expiry/signature failure and a wrong `type` tag
are distinct 400s), find the user by the token's email, require a
`RESET_PASSWORD` row used within the last 15 minutes, then overwrite only
the user's `passwordHash`. -/
def updatePassword (db : DB) (secret : String) (now : Nat) (resetToken : Jwt)
    (password : String) : UpdatePasswordResult × DB :=
  if password.length < 6 then (.validationError, db)
  else
    match jwtVerify resetToken secret now with
    | none => (.err 400 "Invalid or expired reset token", db)
    | some decoded =>
      if decoded.type ≠ "password_reset" then
        (.err 400 "Invalid reset token", db)
      else
        match findUser db decoded.email with
        | none => (.err 400 "User not found", db)
        | some user =>
          match findLatest
              (recentlyUsedPred decoded.email "RESET_PASSWORD"
                (15 * 60 * 1000) now) db.otps with
          | none =>
            (.err 400 "Reset code verification required. Please verify OTP first.", db)
          | some _ =>
            (.ok,
             { db with users := db.users.map (fun u =>
                if u.id == user.id then
                  { u with passwordHash := bcryptHash password }
                else u) })

/-! ## Sample data used by witnesses -/

/-- A sample registered, active student user. -/
def sampleUser1 : User :=
  ⟨1, "a@x.com", bcryptHash "rightpw", "STUDENT", "ACTIVE", true, none, none⟩

/-- A store holding exactly `sampleUser1`. -/
def sampleDb1 : DB := ⟨[sampleUser1], [], [], [], [], [], 2, 1⟩

/-- A live (unused, unexpired at `now = 500000`) `VERIFY_EMAIL` OTP row. -/
def sampleVerifyRow : OtpRow :=
  ⟨1, "new@x.com", "123456", "VERIFY_EMAIL", false, 1000000, 0⟩

/-- An empty store except for `sampleVerifyRow`. -/
def sampleDbVerify : DB := ⟨[], [sampleVerifyRow], [], [], [], [], 1, 2⟩

/-- A `RESET_PASSWORD` OTP row for `sampleUser1`, already marked used. -/
def sampleUsedResetRow : OtpRow :=
  ⟨1, "a@x.com", "654321", "RESET_PASSWORD", true, 1000000, 0⟩

/-- `sampleUser1`'s store together with a recently-used reset row. -/
def sampleDbReset : DB := ⟨[sampleUser1], [sampleUsedResetRow], [], [], [], [], 2, 2⟩

/-- A live (unused) `RESET_PASSWORD` OTP row for `sampleUser1`. -/
def sampleLiveResetRow : OtpRow :=
  ⟨1, "a@x.com", "654321", "RESET_PASSWORD", false, 1000000, 0⟩

/-- `sampleUser1`'s store together with a live reset row. -/
def sampleDbLiveReset : DB :=
  ⟨[sampleUser1], [sampleLiveResetRow], [], [], [], [], 2, 2⟩

/-- The empty store: no users, no OTP rows, no tokens. -/
def sampleDbEmpty : DB := ⟨[], [], [], [], [], [], 1, 1⟩

/-- A `VERIFY_EMAIL` row for `new@x.com` already marked used (verified
recently relative to `now = 500000`). -/
def sampleUsedVerifyRow : OtpRow :=
  ⟨1, "new@x.com", "123456", "VERIFY_EMAIL", true, 1000000, 0⟩

/-- Store holding only `sampleUsedVerifyRow`; `new@x.com` is unregistered. -/
def sampleDbUsedVerify : DB := ⟨[], [sampleUsedVerifyRow], [], [], [], [], 1, 2⟩

/-- A registered user `new@x.com`, for the reset half of the C1 witness. -/
def sampleResetUser : User :=
  ⟨3, "new@x.com", bcryptHash "pw", "STUDENT", "ACTIVE", true, none, none⟩

/-- A live `RESET_PASSWORD` row for `new@x.com` with the same code as
`sampleVerifyRow`. -/
def sampleLiveResetRow2 : OtpRow :=
  ⟨9, "new@x.com", "123456", "RESET_PASSWORD", false, 1000000, 0⟩

/-- Store holding `sampleResetUser` and `sampleLiveResetRow2`. -/
def sampleDbReset2 : DB :=
  ⟨[sampleResetUser], [sampleLiveResetRow2], [], [], [], [], 4, 10⟩

/-- A reset token for `sampleUser1` signed with secret `"s"`, expiring at
`1400000`. -/
def sampleResetTok : Jwt := ⟨⟨"a@x.com", some 1, "password_reset"⟩, "s", 1400000⟩

/-- A verification token for `new@x.com` signed with secret `"s"`. -/
def sampleVerifyTok : Jwt := ⟨⟨"new@x.com", none, "verification"⟩, "s", 1100000⟩

/-! ## Helper lemmas -/

theorem pickLatest_mem : ∀ {l : List OtpRow} {r : OtpRow},
    pickLatest l = some r → r ∈ l := by
  intro l
  induction l with
  | nil => intro r h; simp [pickLatest] at h
  | cons a as ih =>
    intro r h
    simp only [pickLatest] at h
    split at h
    · simp only [Option.some.injEq] at h
      simp [h]
    · rename_i s hp
      split at h
      · simp only [Option.some.injEq] at h
        exact List.mem_cons_of_mem a (h ▸ ih hp)
      · simp only [Option.some.injEq] at h
        simp [h]

theorem pickLatest_ne_none {l : List OtpRow} (h : l ≠ []) :
    pickLatest l ≠ none := by
  cases l with
  | nil => exact absurd rfl h
  | cons a as =>
    simp only [pickLatest]
    split
    · simp
    · split <;> simp

theorem findLatest_some {p : OtpRow → Bool} {l : List OtpRow} {r : OtpRow}
    (h : findLatest p l = some r) : r ∈ l ∧ p r = true := by
  have hm := pickLatest_mem h
  exact ⟨(List.mem_filter.mp hm).1, (List.mem_filter.mp hm).2⟩

theorem findLatest_isSome {p : OtpRow → Bool} {l : List OtpRow} {r : OtpRow}
    (hr : r ∈ l) (hp : p r = true) : ∃ x, findLatest p l = some x := by
  have hne : l.filter p ≠ [] := by
    intro hemp
    have : r ∈ l.filter p := List.mem_filter.mpr ⟨hr, hp⟩
    rw [hemp] at this
    simp at this
  cases hf : pickLatest (l.filter p) with
  | none => exact absurd hf (pickLatest_ne_none hne)
  | some x => exact ⟨x, hf⟩

theorem two_mem_le_length {α : Type _} {l : List α} {a b : α}
    (ha : a ∈ l) (hb : b ∈ l) (hne : a ≠ b) : 2 ≤ l.length := by
  cases l with
  | nil => simp at ha
  | cons x xs =>
    rcases List.mem_cons.mp ha with ha1 | ha2
    · rcases List.mem_cons.mp hb with hb1 | hb2
      · exact absurd (ha1.trans hb1.symm) hne
      · have : 0 < xs.length := List.length_pos.mpr (List.ne_nil_of_mem hb2)
        simp only [List.length_cons]
        omega
    · have : 0 < xs.length := List.length_pos.mpr (List.ne_nil_of_mem ha2)
      simp only [List.length_cons]
      omega

theorem filter_invalidateLive (otps : List OtpRow) (email purpose : String)
    (now : Nat) :
    (invalidateLive otps email purpose now).filter (livePred email purpose now)
      = [] := by
  induction otps with
  | nil => rfl
  | cons r rs ih =>
    rw [invalidateLive, List.map_cons, List.filter_cons]
    rw [invalidateLive] at ih
    by_cases h : livePred email purpose now r = true
    · rw [if_pos h]
      have h2 : livePred email purpose now { r with isUsed := true } = false := by
        simp [livePred]
      simp only [h2, Bool.false_eq_true, if_false]
      exact ih
    · rw [if_neg h]
      simp only [Bool.not_eq_true] at h
      simp only [h, Bool.false_eq_true, if_false]
      exact ih

theorem otpMatches_mono {email otp purpose : String} {now1 now2 : Nat}
    {r : OtpRow} (hle : now1 ≤ now2)
    (h : otpMatches email otp purpose now2 r = true) :
    otpMatches email otp purpose now1 r = true := by
  simp only [otpMatches, Bool.and_eq_true, decide_eq_true_eq] at h ⊢
  exact ⟨h.1, by omega⟩

theorem find?_map_pres {α : Type _} {f : α → α} {p : α → Bool}
    (hf : ∀ a, p (f a) = p a) (l : List α) :
    (l.map f).find? p = (l.find? p).map f := by
  rw [List.find?_map]
  have : p ∘ f = p := funext hf
  rw [this]

/-! ## C5: the OTP code generator -/

/-- C5 counterexample: the claim says codes are drawn from the full
zero-padded range 000000–999999, with leading zeros possible; but the
generator `Math.floor(100000 + Math.random() * 900000)` can never produce
the code 012345 (or any value below 100000). -/
theorem generateOtp_no_leading_zero_counterexample :
    ¬ ∃ rand : Nat, generateOtp rand = 12345 := by
  intro ⟨r, h⟩
  unfold generateOtp at h
  omega

/-- C5 (amended): every generated OTP code lies in 100000–999999 — six
digits, never a leading zero — and the generator is a bijection from the
900000 possible uniform draws onto exactly that range, so codes are
uniform over 100000–999999. -/
theorem generateOtp_uniform_six_digit (rand c : Nat) (hr : rand < 900000)
    (h1 : 100000 ≤ c) (h2 : c ≤ 999999) :
    (100000 ≤ generateOtp rand ∧ generateOtp rand ≤ 999999)
  ∧ generateOtp (c - 100000) = c
  ∧ (generateOtp rand = c ↔ rand = c - 100000) := by
  have hm : rand % 900000 = rand := Nat.mod_eq_of_lt hr
  have hm2 : (c - 100000) % 900000 = c - 100000 := Nat.mod_eq_of_lt (by omega)
  unfold generateOtp
  rw [hm, hm2]
  omega

/-- Witness for C5's amended theorem at `rand = 7`, `c = 123456`. -/
theorem generateOtp_uniform_six_digit_witness :
    ((7 : Nat) < 900000 ∧ (100000 : Nat) ≤ 123456 ∧ (123456 : Nat) ≤ 999999)
  ∧ ((100000 ≤ generateOtp 7 ∧ generateOtp 7 ≤ 999999)
      ∧ generateOtp (123456 - 100000) = 123456
      ∧ (generateOtp 7 = 123456 ↔ 7 = 123456 - 100000)) :=
  ⟨by decide, generateOtp_uniform_six_digit 7 123456 (by decide) (by decide)
      (by decide)⟩

/-! ## C6: login enumeration resistance -/

/-- C6: login with an unknown email and login with a known email but a
wrong password fail with the identical signal — status 401, body
`Invalid credentials` — and neither mutates the store. -/
theorem login_invalid_credentials_uniform
    (db : DB) (now : Nat) (e1 p1 e2 p2 : String) (role : Option String)
    (u : User)
    (h1 : findUser db e1 = none) (hp1 : p1.isEmpty = false)
    (h2 : findUser db e2 = some u)
    (hw : bcryptCompare p2 u.passwordHash = false)
    (hp2 : p2.isEmpty = false) :
    (login db now e1 p1 role).1 = .err 401 "Invalid credentials"
  ∧ (login db now e2 p2 role).1 = .err 401 "Invalid credentials"
  ∧ (login db now e1 p1 role).1 = (login db now e2 p2 role).1
  ∧ (login db now e1 p1 role).2 = db
  ∧ (login db now e2 p2 role).2 = db := by
  have l1 : login db now e1 p1 role = (.err 401 "Invalid credentials", db) := by
    unfold login
    rw [hp1, h1]
    simp
  have l2 : login db now e2 p2 role = (.err 401 "Invalid credentials", db) := by
    unfold login
    rw [hp2, h2]
    simp [hw]
  rw [l1, l2]
  simp

/-- Witness for C6: a store holding one user `a@x.com`; logging in as the
unknown `b@x.com` and as `a@x.com` with a wrong password both give 401
`Invalid credentials`. -/
theorem login_invalid_credentials_uniform_witness :
    (findUser sampleDb1 "b@x.com" = none
      ∧ ("pw1" : String).isEmpty = false
      ∧ findUser sampleDb1 "a@x.com" = some sampleUser1
      ∧ bcryptCompare "wrongpw" sampleUser1.passwordHash = false
      ∧ ("wrongpw" : String).isEmpty = false)
  ∧ ((login sampleDb1 500000 "b@x.com" "pw1" none).1 =
        .err 401 "Invalid credentials"
      ∧ (login sampleDb1 500000 "a@x.com" "wrongpw" none).1 =
        .err 401 "Invalid credentials"
      ∧ (login sampleDb1 500000 "b@x.com" "pw1" none).1 =
        (login sampleDb1 500000 "a@x.com" "wrongpw" none).1
      ∧ (login sampleDb1 500000 "b@x.com" "pw1" none).2 = sampleDb1
      ∧ (login sampleDb1 500000 "a@x.com" "wrongpw" none).2 = sampleDb1) :=
  ⟨⟨by decide, by decide, by decide, by decide, by decide⟩,
    login_invalid_credentials_uniform sampleDb1 500000 "b@x.com" "pw1"
      "a@x.com" "wrongpw" none sampleUser1 (by decide) (by decide) (by decide)
      (by decide) (by decide)⟩

/-! ## C3: resetPassword enumeration resistance -/

/-- C3: for every well-formed email, `resetPassword` answers with the same
success shape — `success: true` (the `ok` constructor), the same message,
`otpStatus = "PENDING_VERIFICATION"`, and some `otpExpiresAt` — whether or
not a user with that email exists; and when none exists the store is left
untouched (no OTP row created) and the returned expiry is the synthesized
`now + 10 minutes`. -/
theorem resetPassword_enumeration_resistant
    (db : DB) (now : Nat) (email : String) (rand : Nat)
    (he : email.isEmpty = false)
    (hn : (jsTrim (jsToLower email)).isEmpty = false) :
    (∃ t, (resetPassword db now email rand).1 =
      .ok "If email exists, password reset OTP sent" "PENDING_VERIFICATION" t)
  ∧ (findUser db (jsTrim (jsToLower email)) = none → findUser db email = none →
      (resetPassword db now email rand).1 =
        .ok "If email exists, password reset OTP sent" "PENDING_VERIFICATION"
          (now + 10 * 60 * 1000)
      ∧ (resetPassword db now email rand).2 = db) := by
  constructor
  · cases hu : (findUser db (jsTrim (jsToLower email))).orElse
        (fun _ => findUser db email) with
    | none =>
      refine ⟨now + 10 * 60 * 1000, ?_⟩
      unfold resetPassword
      rw [if_neg (by simp [he, hn]), hu]
    | some user =>
      refine ⟨now + 10 * 60 * 1000, ?_⟩
      unfold resetPassword
      rw [if_neg (by simp [he, hn]), hu]
  · intro hna hnb
    have hu : (findUser db (jsTrim (jsToLower email))).orElse
        (fun _ => findUser db email) = none := by
      rw [hna]
      simpa using hnb
    constructor
    · unfold resetPassword
      rw [if_neg (by simp [he, hn]), hu]
    · unfold resetPassword
      rw [if_neg (by simp [he, hn]), hu]

/-- Witness for C3 on the empty store and on `sampleDb1`, with the
unregistered email `B@X.com` (normalizing to `b@x.com`). -/
theorem resetPassword_enumeration_resistant_witness :
    (("B@X.com" : String).isEmpty = false
      ∧ (jsTrim (jsToLower "B@X.com")).isEmpty = false
      ∧ findUser sampleDb1 (jsTrim (jsToLower "B@X.com")) = none
      ∧ findUser sampleDb1 "B@X.com" = none)
  ∧ ((∃ t, (resetPassword sampleDb1 500000 "B@X.com" 7).1 =
        .ok "If email exists, password reset OTP sent" "PENDING_VERIFICATION" t)
      ∧ ((resetPassword sampleDb1 500000 "B@X.com" 7).1 =
          .ok "If email exists, password reset OTP sent" "PENDING_VERIFICATION"
            (500000 + 10 * 60 * 1000)
        ∧ (resetPassword sampleDb1 500000 "B@X.com" 7).2 = sampleDb1)) := by
  have h := resetPassword_enumeration_resistant sampleDb1 500000 "B@X.com" 7
    (by decide) (by decide)
  exact ⟨⟨by decide, by decide, by decide, by decide⟩,
    h.1, h.2 (by decide) (by decide)⟩

/-! ## C2: purpose-tag cross-flow rejection -/

/-- C2: a signature-valid, unexpired token whose `type` tag is not
`password_reset` is rejected by `updatePassword` with 400
`Invalid reset token`, and a signature-valid, unexpired token whose `type`
tag is not `verification` is rejected by `register`'s token check with 400
`Email verification failed`; neither call mutates the store. -/
theorem token_purpose_cross_flow_rejected
    (db : DB) (secret : String) (now : Nat) (t1 t2 : Jwt)
    (password email role : String)
    (hs1 : t1.secret = secret) (he1 : now < t1.exp)
    (hp1 : t1.payload.type ≠ "password_reset")
    (hs2 : t2.secret = secret) (he2 : now < t2.exp)
    (hp2 : t2.payload.type ≠ "verification")
    (hlen : 6 ≤ password.length) (hrole : validRole role = true) :
    updatePassword db secret now t1 password =
      (.err 400 "Invalid reset token", db)
  ∧ register db secret now email password role (some t2) =
      (.err 400 "Email verification failed", db) := by
  have hv1 : jwtVerify t1 secret now = some t1.payload := by
    unfold jwtVerify
    rw [if_pos ⟨hs1, he1⟩]
  have hv2 : jwtVerify t2 secret now = some t2.payload := by
    unfold jwtVerify
    rw [if_pos ⟨hs2, he2⟩]
  constructor
  · unfold updatePassword
    rw [if_neg (by omega), hv1]
    dsimp only
    rw [if_pos hp1]
  · unfold register
    rw [if_neg (by omega), if_neg (by simp [hrole])]
    dsimp only
    rw [hv2]
    dsimp only
    rw [if_pos (Or.inr hp2)]

/-- Witness for C2: the verification token `sampleVerifyTok` is rejected by
`updatePassword`, and the reset token `sampleResetTok` is rejected by
`register`, on `sampleDb1` with secret `"s"` at `now = 500000`. -/
theorem token_purpose_cross_flow_rejected_witness :
    (sampleVerifyTok.secret = "s" ∧ 500000 < sampleVerifyTok.exp
      ∧ sampleVerifyTok.payload.type ≠ "password_reset"
      ∧ sampleResetTok.secret = "s" ∧ 500000 < sampleResetTok.exp
      ∧ sampleResetTok.payload.type ≠ "verification"
      ∧ 6 ≤ ("hunter22" : String).length ∧ validRole "STUDENT" = true)
  ∧ (updatePassword sampleDb1 "s" 500000 sampleVerifyTok "hunter22" =
        (.err 400 "Invalid reset token", sampleDb1)
      ∧ register sampleDb1 "s" 500000 "new@x.com" "hunter22" "STUDENT"
          (some sampleResetTok) =
        (.err 400 "Email verification failed", sampleDb1)) :=
  ⟨⟨by decide, by decide, by decide, by decide, by decide, by decide,
      by decide, by decide⟩,
    token_purpose_cross_flow_rejected sampleDb1 "s" 500000 sampleVerifyTok
      sampleResetTok "hunter22" "new@x.com" "STUDENT" (by decide) (by decide)
      (by decide) (by decide) (by decide) (by decide) (by decide) (by decide)⟩

/-! ## C1: one-time use of OTP codes -/

theorem verifyOtp_success_elim {db : DB} {secret : String} {now : Nat}
    {email otp : String} {tok : Jwt} {db' : DB}
    (h : verifyOtp db secret now email otp = (.success tok, db')) :
    isSixDigits otp = true ∧
    ∃ row,
      findLatest (otpMatches email otp "VERIFY_EMAIL" now) db.otps = some row
      ∧ tok = jwtSign ⟨email, none, "verification"⟩ secret now (10 * 60 * 1000)
      ∧ db' = { db with otps := markUsed db.otps row.id } := by
  unfold verifyOtp at h
  split at h
  · rename_i hv
    split at h
    · simp at h
    · rename_i row hf
      simp only [Prod.mk.injEq, TokenResult.success.injEq] at h
      exact ⟨hv, row, hf, h.1.symm, h.2.symm⟩
  · rename_i hv
    simp at h

theorem verifyResetOtp_success_elim {db : DB} {secret : String} {now : Nat}
    {email otp : String} {tok : Jwt} {db' : DB}
    (h : verifyResetOtp db secret now email otp = (.success tok, db')) :
    isSixDigits otp = true ∧
    ∃ user row,
      findUser db email = some user
      ∧ findLatest (otpMatches email otp "RESET_PASSWORD" now) db.otps = some row
      ∧ tok = jwtSign ⟨email, some user.id, "password_reset"⟩ secret now
          (15 * 60 * 1000)
      ∧ db' = { db with otps := markUsed db.otps row.id } := by
  unfold verifyResetOtp at h
  split at h
  · rename_i hv
    split at h
    · simp at h
    · rename_i user hu
      split at h
      · simp at h
      · rename_i row hf
        simp only [Prod.mk.injEq, TokenResult.success.injEq] at h
        exact ⟨hv, user, row, hu, hf, h.1.symm, h.2.symm⟩
  · rename_i hv
    simp at h

/-- Once the row found by a successful verify has been marked used, no row
matches the same `(email, otp, purpose)` at any later instant — provided
the store held at most one matching live row, which is the at-most-one
invariant the issue operations maintain. -/
theorem consumed_not_matched
    {otps : List OtpRow} {email otp purpose : String} {now1 now2 : Nat}
    {row : OtpRow}
    (hle : now1 ≤ now2)
    (huniq : (otps.filter (otpMatches email otp purpose now1)).length ≤ 1)
    (hf : findLatest (otpMatches email otp purpose now1) otps = some row) :
    findLatest (otpMatches email otp purpose now2) (markUsed otps row.id)
      = none := by
  cases hf2 : findLatest (otpMatches email otp purpose now2)
      (markUsed otps row.id) with
  | none => rfl
  | some r1 =>
    exfalso
    obtain ⟨hmem1, hpred1⟩ := findLatest_some hf2
    unfold markUsed at hmem1
    obtain ⟨r2, hmem2, heq2⟩ := List.mem_map.mp hmem1
    by_cases hid : (r2.id == row.id) = true
    · rw [if_pos hid] at heq2
      rw [← heq2] at hpred1
      simp [otpMatches] at hpred1
    · rw [if_neg hid] at heq2
      rw [← heq2] at hpred1
      have hp1 : otpMatches email otp purpose now1 r2 = true :=
        otpMatches_mono hle hpred1
      obtain ⟨hrmem, hrpred⟩ := findLatest_some hf
      have hmf1 : row ∈ otps.filter (otpMatches email otp purpose now1) :=
        List.mem_filter.mpr ⟨hrmem, hrpred⟩
      have hmf2 : r2 ∈ otps.filter (otpMatches email otp purpose now1) :=
        List.mem_filter.mpr ⟨hmem2, hp1⟩
      have hne : r2 ≠ row := by
        intro he
        rw [he] at hid
        simp at hid
      have := two_mem_le_length hmf2 hmf1 hne
      omega

/-- C1: a successful `verifyOtp` (resp. `verifyResetOtp`) marks the matched
OTP row `isUsed = true`, and any later verify call with the same email,
code and purpose fails with the invalid-or-expired-code error — assuming
the store held at most one live row matching `(email, code, purpose)`,
i.e. the invariant maintained by the issue operations. -/
theorem otp_code_single_use
    (secret : String) (now1 now2 : Nat) (email otp : String)
    (db dbR db1 dbR1 : DB) (tok tokR : Jwt)
    (hle : now1 ≤ now2)
    (huniq : (db.otps.filter
        (otpMatches email otp "VERIFY_EMAIL" now1)).length ≤ 1)
    (h : verifyOtp db secret now1 email otp = (.success tok, db1))
    (huniqR : (dbR.otps.filter
        (otpMatches email otp "RESET_PASSWORD" now1)).length ≤ 1)
    (hR : verifyResetOtp dbR secret now1 email otp = (.success tokR, dbR1)) :
    (∃ row,
        findLatest (otpMatches email otp "VERIFY_EMAIL" now1) db.otps = some row
        ∧ row.isUsed = false
        ∧ db1 = { db with otps := markUsed db.otps row.id })
  ∧ (verifyOtp db1 secret now2 email otp).1 = .err 400 "Invalid or expired OTP"
  ∧ (verifyResetOtp dbR1 secret now2 email otp).1 =
      .err 400 "Invalid or expired reset code" := by
  obtain ⟨hv, row, hf, -, hdb⟩ := verifyOtp_success_elim h
  obtain ⟨hvR, user, rowR, huR, hfR, -, hdbR⟩ := verifyResetOtp_success_elim hR
  have hrowUnused : row.isUsed = false := by
    have := (findLatest_some hf).2
    simp only [otpMatches, Bool.and_eq_true, Bool.not_eq_true'] at this
    exact this.1.2
  refine ⟨⟨row, hf, hrowUnused, hdb⟩, ?_, ?_⟩
  · have hnone : findLatest (otpMatches email otp "VERIFY_EMAIL" now2)
        db1.otps = none := by
      rw [hdb]
      exact consumed_not_matched hle huniq hf
    unfold verifyOtp
    rw [if_pos hv, hnone]
  · have hu2 : findUser dbR1 email = some user := by
      unfold findUser at huR ⊢
      rw [hdbR]
      exact huR
    have hnoneR : findLatest (otpMatches email otp "RESET_PASSWORD" now2)
        dbR1.otps = none := by
      rw [hdbR]
      exact consumed_not_matched hle huniqR hfR
    unfold verifyResetOtp
    rw [if_pos hvR, hu2]
    dsimp only
    rw [hnoneR]

/-- Witness for C1: a `VERIFY_EMAIL` row for `new@x.com` and a
`RESET_PASSWORD` row for the registered `new@x.com`, each verified
successfully at `now = 500000` and re-presented at `now = 600000`. -/
theorem otp_code_single_use_witness :
    ((500000 : Nat) ≤ 600000
      ∧ (sampleDbVerify.otps.filter
          (otpMatches "new@x.com" "123456" "VERIFY_EMAIL" 500000)).length ≤ 1
      ∧ verifyOtp sampleDbVerify "s" 500000 "new@x.com" "123456" =
          (.success (jwtSign ⟨"new@x.com", none, "verification"⟩ "s" 500000
            (10 * 60 * 1000)),
           { sampleDbVerify with otps := markUsed sampleDbVerify.otps 1 })
      ∧ (sampleDbReset2.otps.filter
          (otpMatches "new@x.com" "123456" "RESET_PASSWORD" 500000)).length ≤ 1
      ∧ verifyResetOtp sampleDbReset2 "s" 500000 "new@x.com" "123456" =
          (.success (jwtSign ⟨"new@x.com", some 3, "password_reset"⟩ "s" 500000
            (15 * 60 * 1000)),
           { sampleDbReset2 with otps := markUsed sampleDbReset2.otps 9 }))
  ∧ ((∃ row,
        findLatest (otpMatches "new@x.com" "123456" "VERIFY_EMAIL" 500000)
          sampleDbVerify.otps = some row
        ∧ row.isUsed = false
        ∧ { sampleDbVerify with otps := markUsed sampleDbVerify.otps 1 } =
            { sampleDbVerify with otps := markUsed sampleDbVerify.otps row.id })
      ∧ (verifyOtp
          { sampleDbVerify with otps := markUsed sampleDbVerify.otps 1 }
          "s" 600000 "new@x.com" "123456").1 = .err 400 "Invalid or expired OTP"
      ∧ (verifyResetOtp
          { sampleDbReset2 with otps := markUsed sampleDbReset2.otps 9 }
          "s" 600000 "new@x.com" "123456").1 =
          .err 400 "Invalid or expired reset code") :=
  ⟨⟨by omega, by decide, by decide, by decide, by decide⟩,
    otp_code_single_use "s" 500000 600000 "new@x.com" "123456"
      sampleDbVerify sampleDbReset2
      { sampleDbVerify with otps := markUsed sampleDbVerify.otps 1 }
      { sampleDbReset2 with otps := markUsed sampleDbReset2.otps 9 }
      (jwtSign ⟨"new@x.com", none, "verification"⟩ "s" 500000 (10 * 60 * 1000))
      (jwtSign ⟨"new@x.com", some 3, "password_reset"⟩ "s" 500000
        (15 * 60 * 1000))
      (by omega) (by decide) (by decide) (by decide) (by decide)⟩

/-! ## C4: at most one live OTP row per (email, purpose) after issue -/

/-- C4: immediately after a completed issue operation — `sendOtp` for
`VERIFY_EMAIL` (which requires the email to be unregistered) or
`resetPassword` for `RESET_PASSWORD` (which requires the user lookup,
normalized-then-raw, to succeed) — at most one OTP row for the issued
(email, purpose) pair is both unused and unexpired, because issue first
marks every live row for the pair used and then inserts exactly one fresh
row. The two flows run on independent stores, instants and emails. -/
theorem issue_at_most_one_live_row
    (db dbR : DB) (now nowR : Nat) (email emailR : String)
    (rand randR : Nat) (user : User)
    (hnone : findUser db email = none)
    (he : emailR.isEmpty = false)
    (hn : (jsTrim (jsToLower emailR)).isEmpty = false)
    (hu : (findUser dbR (jsTrim (jsToLower emailR))).orElse
        (fun _ => findUser dbR emailR) = some user) :
    (((sendOtp db now email rand).2).otps.filter
        (livePred email "VERIFY_EMAIL" now)).length ≤ 1
  ∧ (((resetPassword dbR nowR emailR randR).2).otps.filter
        (livePred user.email "RESET_PASSWORD" nowR)).length ≤ 1 := by
  constructor
  · have hlive : livePred email "VERIFY_EMAIL" now
        ⟨db.nextOtpId, email, toString (generateOtp rand), "VERIFY_EMAIL",
          false, now + 5 * 60 * 1000, now⟩ = true := by
      simp [livePred]
    unfold sendOtp
    rw [hnone]
    dsimp only
    rw [List.filter_append, filter_invalidateLive, List.nil_append]
    simp [List.filter_cons, hlive]
  · have hlive : livePred user.email "RESET_PASSWORD" nowR
        ⟨dbR.nextOtpId, user.email, toString (generateOtp randR),
          "RESET_PASSWORD", false, nowR + 10 * 60 * 1000, nowR⟩ = true := by
      simp [livePred]
    unfold resetPassword
    rw [if_neg (by simp [he, hn]), hu]
    dsimp only
    rw [List.filter_append, filter_invalidateLive, List.nil_append]
    simp [List.filter_cons, hlive]

/-- Witness for C4 on the claim's central cases: `sendOtp` for the fresh
`fresh@x.com` on the empty store, and `resetPassword` for the
exactly-registered `a@x.com` on `sampleDb1`. -/
theorem issue_at_most_one_live_row_witness :
    (findUser sampleDbEmpty "fresh@x.com" = none
      ∧ ("a@x.com" : String).isEmpty = false
      ∧ (jsTrim (jsToLower "a@x.com")).isEmpty = false
      ∧ (findUser sampleDb1 (jsTrim (jsToLower "a@x.com"))).orElse
          (fun _ => findUser sampleDb1 "a@x.com") = some sampleUser1)
  ∧ ((((sendOtp sampleDbEmpty 500000 "fresh@x.com" 7).2).otps.filter
        (livePred "fresh@x.com" "VERIFY_EMAIL" 500000)).length ≤ 1
      ∧ (((resetPassword sampleDb1 600000 "a@x.com" 42).2).otps.filter
        (livePred sampleUser1.email "RESET_PASSWORD" 600000)).length ≤ 1) :=
  ⟨⟨by decide, by decide, by decide, by decide⟩,
    issue_at_most_one_live_row sampleDbEmpty sampleDb1 500000 600000
      "fresh@x.com" "a@x.com" 7 42 sampleUser1
      (by decide) (by decide) (by decide) (by decide)⟩

/-! ## C7 and C10: registration -/

theorem find?_user_append_new {users : List User} {email : String} (u : User)
    (hnone : users.find? (fun x => x.email == email) = none)
    (hu : (u.email == email) = true) :
    (users ++ [u]).find? (fun x => x.email == email) = some u := by
  rw [List.find?_append, hnone]
  simp [List.find?, hu]

theorem registerCore_ok (db : DB) (now : Nat) (email password role : String)
    (ev : Bool) (eva : Option Nat)
    (hnone : findUser db email = none) :
    (registerCore db now email password role ev eva).1 =
      .ok db.nextUserId ev (generateAccessToken db.nextUserId now)
        (generateRefreshToken db.nextUserId now)
  ∧ findUser (registerCore db now email password role ev eva).2 email =
      some ⟨db.nextUserId, email, bcryptHash password, role,
        if role == "RECRUITER" then "PENDING" else "ACTIVE", ev, eva, none⟩ := by
  unfold registerCore
  rw [hnone]
  dsimp only
  constructor
  · rfl
  · unfold findUser at hnone ⊢
    split_ifs <;>
      exact find?_user_append_new _ hnone (by simp)

theorem registerCore_ok_or_unchanged (db : DB) (now : Nat)
    (email password role : String) (ev : Bool) (eva : Option Nat) :
    (∃ uid ev2 a r,
      (registerCore db now email password role ev eva).1 = .ok uid ev2 a r)
  ∨ (registerCore db now email password role ev eva).2 = db := by
  unfold registerCore
  split
  · right; rfl
  · left; exact ⟨_, _, _, _, rfl⟩

theorem register_ok_or_unchanged (db : DB) (secret : String) (now : Nat)
    (email password role : String) (vt : Option Jwt) :
    (∃ uid ev a r,
      (register db secret now email password role vt).1 = .ok uid ev a r)
  ∨ (register db secret now email password role vt).2 = db := by
  unfold register
  split
  · right; rfl
  · split
    · right; rfl
    · split
      · exact registerCore_ok_or_unchanged db now email password role false none
      · split
        · right; rfl
        · split
          · right; rfl
          · split
            · right; rfl
            · exact registerCore_ok_or_unchanged db now email password role
                true (some now)

/-- C7: `register` with no verification token, for an unregistered email
and valid inputs, succeeds and creates the user with
`emailVerified = false` — with no assumption whatsoever on the OTP table;
and `register` with a signature-valid unexpired token of type
`verification` whose subject email equals the registration email, backed
by a `VERIFY_EMAIL` OTP row used within the last 10 minutes, succeeds and
creates the user with `emailVerified = true` (and `emailVerifiedAt` set).
The two calls run on independent stores, instants and inputs. -/
theorem register_emailVerified_modes
    (db dbT : DB) (secret : String) (now nowT : Nat)
    (email emailT password passwordT role roleT : String)
    (tok : Jwt) (row : OtpRow)
    (hnone : findUser db email = none)
    (hlen : 6 ≤ password.length) (hrole : validRole role = true)
    (hnoneT : findUser dbT emailT = none)
    (hlenT : 6 ≤ passwordT.length) (hroleT : validRole roleT = true)
    (hs : tok.secret = secret) (hexp : nowT < tok.exp)
    (hpe : tok.payload.email = emailT)
    (hpt : tok.payload.type = "verification")
    (hrow : findLatest
        (recentlyUsedPred emailT "VERIFY_EMAIL" (10 * 60 * 1000) nowT)
        dbT.otps = some row) :
    ((register db secret now email password role none).1 =
        .ok db.nextUserId false (generateAccessToken db.nextUserId now)
          (generateRefreshToken db.nextUserId now)
      ∧ findUser (register db secret now email password role none).2 email =
          some ⟨db.nextUserId, email, bcryptHash password, role,
            if role == "RECRUITER" then "PENDING" else "ACTIVE",
            false, none, none⟩)
  ∧ ((register dbT secret nowT emailT passwordT roleT (some tok)).1 =
        .ok dbT.nextUserId true (generateAccessToken dbT.nextUserId nowT)
          (generateRefreshToken dbT.nextUserId nowT)
      ∧ findUser (register dbT secret nowT emailT passwordT roleT
          (some tok)).2 emailT =
          some ⟨dbT.nextUserId, emailT, bcryptHash passwordT, roleT,
            if roleT == "RECRUITER" then "PENDING" else "ACTIVE",
            true, some nowT, none⟩) := by
  have hv : jwtVerify tok secret nowT = some tok.payload := by
    unfold jwtVerify
    rw [if_pos ⟨hs, hexp⟩]
  have hreg1 : register db secret now email password role none =
      registerCore db now email password role false none := by
    unfold register
    rw [if_neg (by omega), if_neg (by simp [hrole])]
  have hreg2 : register dbT secret nowT emailT passwordT roleT (some tok) =
      registerCore dbT nowT emailT passwordT roleT true (some nowT) := by
    unfold register
    rw [if_neg (by omega), if_neg (by simp [hroleT])]
    dsimp only
    rw [hv]
    dsimp only
    rw [if_neg (by simp [hpe, hpt]), hrow]
  rw [hreg1, hreg2]
  exact ⟨registerCore_ok db now email password role false none hnone,
    registerCore_ok dbT nowT emailT passwordT roleT true (some nowT) hnoneT⟩

/-- Witness for C7: the skip-OTP case registers `fresh@x.com` on the empty
store (no OTP row exists at all) and gets `emailVerified = false`; the
token case registers `new@x.com` on a store holding a recently-used
`VERIFY_EMAIL` row, with `sampleVerifyTok`, and gets
`emailVerified = true`. -/
theorem register_emailVerified_modes_witness :
    (findUser sampleDbEmpty "fresh@x.com" = none
      ∧ 6 ≤ ("password1" : String).length
      ∧ validRole "RECRUITER" = true
      ∧ findUser sampleDbUsedVerify "new@x.com" = none
      ∧ 6 ≤ ("hunter22" : String).length
      ∧ validRole "STUDENT" = true
      ∧ sampleVerifyTok.secret = "s" ∧ 500000 < sampleVerifyTok.exp
      ∧ sampleVerifyTok.payload.email = "new@x.com"
      ∧ sampleVerifyTok.payload.type = "verification"
      ∧ findLatest
          (recentlyUsedPred "new@x.com" "VERIFY_EMAIL" (10 * 60 * 1000) 500000)
          sampleDbUsedVerify.otps = some sampleUsedVerifyRow)
  ∧ (((register sampleDbEmpty "s" 300000 "fresh@x.com" "password1" "RECRUITER"
        none).1 =
        .ok sampleDbEmpty.nextUserId false
          (generateAccessToken sampleDbEmpty.nextUserId 300000)
          (generateRefreshToken sampleDbEmpty.nextUserId 300000)
      ∧ findUser (register sampleDbEmpty "s" 300000 "fresh@x.com" "password1"
          "RECRUITER" none).2 "fresh@x.com" =
          some ⟨sampleDbEmpty.nextUserId, "fresh@x.com",
            bcryptHash "password1", "RECRUITER",
            if ("RECRUITER" : String) == "RECRUITER" then "PENDING"
            else "ACTIVE",
            false, none, none⟩)
    ∧ ((register sampleDbUsedVerify "s" 500000 "new@x.com" "hunter22" "STUDENT"
        (some sampleVerifyTok)).1 =
        .ok sampleDbUsedVerify.nextUserId true
          (generateAccessToken sampleDbUsedVerify.nextUserId 500000)
          (generateRefreshToken sampleDbUsedVerify.nextUserId 500000)
      ∧ findUser (register sampleDbUsedVerify "s" 500000 "new@x.com" "hunter22"
          "STUDENT" (some sampleVerifyTok)).2 "new@x.com" =
          some ⟨sampleDbUsedVerify.nextUserId, "new@x.com",
            bcryptHash "hunter22", "STUDENT",
            if ("STUDENT" : String) == "RECRUITER" then "PENDING" else "ACTIVE",
            true, some 500000, none⟩)) :=
  ⟨⟨by decide, by decide, by decide, by decide, by decide, by decide,
      by decide, by decide, by decide, by decide, by decide⟩,
    register_emailVerified_modes sampleDbEmpty sampleDbUsedVerify "s" 300000
      500000 "fresh@x.com" "new@x.com" "password1" "hunter22" "RECRUITER"
      "STUDENT" sampleVerifyTok sampleUsedVerifyRow (by decide) (by decide)
      (by decide) (by decide) (by decide) (by decide) (by decide) (by decide)
      (by decide) (by decide) (by decide)⟩

/-- C10: whenever `register` fails with an error, the store is unchanged —
no `User` row, no role-specific profile row and no `RefreshToken` row is
written; every failure check precedes the first write. -/
theorem register_failure_writes_nothing
    (db : DB) (secret : String) (now : Nat) (email password role : String)
    (vt : Option Jwt) (s : Nat) (m : String)
    (h : (register db secret now email password role vt).1 = .err s m) :
    (register db secret now email password role vt).2 = db := by
  rcases register_ok_or_unchanged db secret now email password role vt with
    ⟨uid, ev, a, r, hok⟩ | hunch
  · rw [hok] at h
    simp at h
  · exact hunch

/-- Witness for C10: registering the already-taken `a@x.com` fails with
`Email already registered` and leaves `sampleDb1` unchanged. -/
theorem register_failure_writes_nothing_witness :
    ((register sampleDb1 "s" 500000 "a@x.com" "hunter22" "STUDENT" none).1 =
      .err 400 "Email already registered")
  ∧ (register sampleDb1 "s" 500000 "a@x.com" "hunter22" "STUDENT" none).2 =
      sampleDb1 :=
  ⟨by decide,
    register_failure_writes_nothing sampleDb1 "s" 500000 "a@x.com" "hunter22"
      "STUDENT" none 400 "Email already registered" (by decide)⟩

/-! ## C8 and C9: the password-update step -/

theorem jwtVerify_payload {t : Jwt} {secret : String} {now : Nat}
    {p : JwtPayload} (h : jwtVerify t secret now = some p) :
    p = t.payload ∧ t.secret = secret ∧ now < t.exp := by
  unfold jwtVerify at h
  split at h
  · rename_i hc
    simp only [Option.some.injEq] at h
    exact ⟨h.symm, hc.1, hc.2⟩
  · simp at h

theorem updatePassword_success_elim {db : DB} {secret : String} {now : Nat}
    {tok : Jwt} {password : String} {db' : DB}
    (h : updatePassword db secret now tok password = (.ok, db')) :
    6 ≤ password.length
  ∧ jwtVerify tok secret now = some tok.payload
  ∧ tok.payload.type = "password_reset"
  ∧ ∃ user row,
      findUser db tok.payload.email = some user
      ∧ findLatest (recentlyUsedPred tok.payload.email "RESET_PASSWORD"
          (15 * 60 * 1000) now) db.otps = some row
      ∧ db' = { db with users := db.users.map (fun u =>
          if u.id == user.id then
            { u with passwordHash := bcryptHash password }
          else u) } := by
  unfold updatePassword at h
  split at h
  · simp at h
  · rename_i hlen
    split at h
    · simp at h
    · rename_i decoded hv
      obtain ⟨hdec, -, -⟩ := jwtVerify_payload hv
      subst hdec
      split at h
      · simp at h
      · rename_i htype
        rw [Decidable.not_not] at htype
        split at h
        · simp at h
        · rename_i user hu
          split at h
          · simp at h
          · rename_i row hrow
            simp only [Prod.mk.injEq] at h
            exact ⟨by omega, hv, htype, user, row, hu, hrow, h.2.symm⟩

/-- C9: a successful `updatePassword` leaves the OTP table and the refresh
tokens untouched and rewrites only the target user's `passwordHash`; in
particular it consumes nothing, so the very same reset token immediately
succeeds again with any other valid password — the password update is not
one-time. -/
theorem updatePassword_frame_and_reusable
    (db : DB) (secret : String) (now : Nat) (tok : Jwt) (pw pw2 : String)
    (db' : DB)
    (h : updatePassword db secret now tok pw = (.ok, db'))
    (hlen2 : 6 ≤ pw2.length) :
    db'.otps = db.otps
  ∧ db'.refreshTokens = db.refreshTokens
  ∧ (∃ uid, db'.users = db.users.map (fun u =>
      if u.id == uid then { u with passwordHash := bcryptHash pw } else u))
  ∧ (updatePassword db' secret now tok pw2).1 = .ok := by
  obtain ⟨hlen, hv, htype, user, row, hu, hrow, hdb⟩ :=
    updatePassword_success_elim h
  refine ⟨by rw [hdb], by rw [hdb], ⟨user.id, by rw [hdb]⟩, ?_⟩
  have hpres : ∀ u : User,
      ((fun x : User => x.email == tok.payload.email)
        (if u.id == user.id then { u with passwordHash := bcryptHash pw }
          else u)) =
      ((fun x : User => x.email == tok.payload.email) u) := by
    intro u
    by_cases hc : (u.id == user.id) = true
    · rw [if_pos hc]
    · rw [if_neg hc]
  have hu2 : findUser db' tok.payload.email =
      some (if (user.id == user.id) = true
        then { user with passwordHash := bcryptHash pw } else user) := by
    unfold findUser at hu ⊢
    rw [hdb]
    dsimp only
    rw [find?_map_pres hpres db.users, hu]
    rfl
  rw [if_pos (by simp)] at hu2
  have hrow2 : findLatest (recentlyUsedPred tok.payload.email "RESET_PASSWORD"
      (15 * 60 * 1000) now) db'.otps = some row := by
    rw [hdb]
    exact hrow
  unfold updatePassword
  rw [if_neg (by omega), hv]
  dsimp only
  rw [if_neg (by simp [htype]), hu2]
  dsimp only
  rw [hrow2]

/-- Witness for C9 on `sampleDbReset` with `sampleResetTok`: updating to
`newpass1` succeeds, and the very same token immediately updates again to
`newpass2`. -/
theorem updatePassword_frame_and_reusable_witness :
    (updatePassword sampleDbReset "s" 500000 sampleResetTok "newpass1" =
        (.ok, { sampleDbReset with
          users := [{ sampleUser1 with passwordHash := bcryptHash "newpass1" }] })
      ∧ 6 ≤ ("newpass2" : String).length)
  ∧ (({ sampleDbReset with
        users := [{ sampleUser1 with
          passwordHash := bcryptHash "newpass1" }] } : DB).otps =
        sampleDbReset.otps
      ∧ ({ sampleDbReset with
        users := [{ sampleUser1 with
          passwordHash := bcryptHash "newpass1" }] } : DB).refreshTokens =
        sampleDbReset.refreshTokens
      ∧ (∃ uid, ({ sampleDbReset with
          users := [{ sampleUser1 with
            passwordHash := bcryptHash "newpass1" }] } : DB).users =
          sampleDbReset.users.map (fun u =>
            if u.id == uid then
              { u with passwordHash := bcryptHash "newpass1" }
            else u))
      ∧ (updatePassword { sampleDbReset with
          users := [{ sampleUser1 with
            passwordHash := bcryptHash "newpass1" }] } "s" 500000
          sampleResetTok "newpass2").1 = .ok) :=
  ⟨⟨by decide, by decide⟩,
    updatePassword_frame_and_reusable sampleDbReset "s" 500000 sampleResetTok
      "newpass1" "newpass2"
      { sampleDbReset with
        users := [{ sampleUser1 with passwordHash := bcryptHash "newpass1" }] }
      (by decide) (by decide)⟩

/-- C8 counterexample: the claim says a 7-character password fails
validation as too short; but the validator is `isLength({ min: 6 })`, so
on a store with a verified reset OTP and a valid reset token,
`updatePassword` with the 7-character password `1234567` succeeds. -/
theorem updatePassword_seven_char_succeeds :
    ("1234567" : String).length = 7
  ∧ (updatePassword sampleDbReset "s" 500000 sampleResetTok "1234567").1 =
      .ok := by
  constructor
  · decide
  · decide

/-- C8 (amended): in the reset flow, `updatePassword` called with the
resetToken returned by a successful `verifyResetOtp` and a too-short
password (fewer than 6 characters) fails validation without touching the
store — the "recently verified" state is not consumed — and a retry with a
password of at least 6 characters succeeds. -/
theorem updatePassword_short_password_retry
    (db db1 : DB) (secret : String) (now : Nat)
    (email otp pwShort pwOk : String) (tok : Jwt)
    (hv : verifyResetOtp db secret now email otp = (.success tok, db1))
    (hshort : pwShort.length < 6) (hok : 6 ≤ pwOk.length) :
    updatePassword db1 secret now tok pwShort = (.validationError, db1)
  ∧ (updatePassword db1 secret now tok pwOk).1 = .ok := by
  obtain ⟨hsix, user, row, hu, hf, htok, hdb⟩ := verifyResetOtp_success_elim hv
  constructor
  · unfold updatePassword
    rw [if_pos hshort]
  · have hAll : (row.email == email) = true ∧ (row.otp == otp) = true
        ∧ (row.purpose == "RESET_PASSWORD") = true ∧ row.isUsed = false
        ∧ now < row.expiresAt := by
      have hm := (findLatest_some hf).2
      simp only [otpMatches, Bool.and_eq_true, decide_eq_true_eq,
        Bool.not_eq_true'] at hm
      tauto
    have hvv : jwtVerify tok secret now = some tok.payload := by
      rw [htok]
      unfold jwtVerify jwtSign
      rw [if_pos ⟨rfl, by show now < now + 15 * 60 * 1000; omega⟩]
    have htype : tok.payload.type = "password_reset" := by
      subst htok
      rfl
    have hemail : tok.payload.email = email := by
      subst htok
      rfl
    have hu1 : findUser db1 tok.payload.email = some user := by
      unfold findUser at hu ⊢
      rw [hdb, hemail]
      exact hu
    have hmarked : { row with isUsed := true } ∈ db1.otps := by
      rw [hdb]
      dsimp only
      unfold markUsed
      exact List.mem_map.mpr ⟨row, (findLatest_some hf).1, by simp⟩
    have hpred : recentlyUsedPred tok.payload.email "RESET_PASSWORD"
        (15 * 60 * 1000) now { row with isUsed := true } = true := by
      simp only [recentlyUsedPred, hemail, Bool.and_eq_true, decide_eq_true_eq]
      have h1 : (({ row with isUsed := true } : OtpRow).email == email)
          = true := hAll.1
      have h2 : (({ row with isUsed := true } : OtpRow).purpose ==
          "RESET_PASSWORD") = true := hAll.2.2.1
      have h3 : ({ row with isUsed := true } : OtpRow).isUsed = true := rfl
      have h4 : now < ({ row with isUsed := true } : OtpRow).expiresAt
          + 15 * 60 * 1000 := by
        show now < row.expiresAt + 15 * 60 * 1000
        have := hAll.2.2.2.2
        omega
      tauto
    obtain ⟨x, hx⟩ := findLatest_isSome hmarked hpred
    unfold updatePassword
    rw [if_neg (by omega), hvv]
    dsimp only
    rw [if_neg (by simp [htype]), hu1]
    dsimp only
    rw [hx]

/-- Witness for C8's amended theorem: `verifyResetOtp` succeeds on
`sampleDbLiveReset`, then `updatePassword` with `12345` fails validation
leaving the store as-is, and `123456` succeeds. -/
theorem updatePassword_short_password_retry_witness :
    (verifyResetOtp sampleDbLiveReset "s" 500000 "a@x.com" "654321" =
        (.success (jwtSign ⟨"a@x.com", some 1, "password_reset"⟩ "s" 500000
          (15 * 60 * 1000)),
         { sampleDbLiveReset with
            otps := markUsed sampleDbLiveReset.otps 1 })
      ∧ ("12345" : String).length < 6 ∧ 6 ≤ ("123456" : String).length)
  ∧ (updatePassword { sampleDbLiveReset with
        otps := markUsed sampleDbLiveReset.otps 1 } "s" 500000
        (jwtSign ⟨"a@x.com", some 1, "password_reset"⟩ "s" 500000
          (15 * 60 * 1000)) "12345" =
        (.validationError,
         { sampleDbLiveReset with otps := markUsed sampleDbLiveReset.otps 1 })
      ∧ (updatePassword { sampleDbLiveReset with
          otps := markUsed sampleDbLiveReset.otps 1 } "s" 500000
          (jwtSign ⟨"a@x.com", some 1, "password_reset"⟩ "s" 500000
            (15 * 60 * 1000)) "123456").1 = .ok) :=
  ⟨⟨by decide, by decide, by decide⟩,
    updatePassword_short_password_retry sampleDbLiveReset
      { sampleDbLiveReset with otps := markUsed sampleDbLiveReset.otps 1 }
      "s" 500000 "a@x.com" "654321" "12345" "123456"
      (jwtSign ⟨"a@x.com", some 1, "password_reset"⟩ "s" 500000
        (15 * 60 * 1000))
      (by decide) (by decide) (by decide)⟩

end Portal
